import Mathlib

/-
Shallow embedding of the `webapi` repository's browser module (the live
variant, `src/unnamed/part_002`, which is the `./browser.js` imported by
`src/src/index.ts`) and of the `/scan-screenshot` route of
`src/src/index.ts`.

Modelling conventions:
- A DOM is a `List Elem` in document order; each `Elem` carries exactly the
  attributes the source reads (`getAttribute` results as `Option String`,
  `null` = `none`), the `.type` property, `textContent`, the engine-reported
  visibility bit (what `el.isVisible()` would return), and the bounding box
  from `getBoundingClientRect`, with coordinates modelled as integers.
- JavaScript `x || y` string truthiness (both `null`/`undefined` and `""` are
  falsy) is modelled by `truthyStr`.
- `async` functions that the route awaits are modelled as pure state
  transformers; the work function passed to `withPage` is modelled as an
  `Except` value covering both its normal return and its thrown exception.
- Floating point confidences (0.85 / 0.55) are modelled as rationals.
-/

/-- JS string truthiness on a nullable string: `null`/`undefined` and the
empty string are falsy. `truthyStr o = some s` iff `o` holds a non-empty
string; used to model every `x || y` fallback in the source. -/
def truthyStr : Option String → Option String
  | none => none
  | some s => if s = "" then none else some s

/-- JS whitespace test for the characters relevant to `\s`, `trim`. -/
def isWs (c : Char) : Bool :=
  c = ' ' || c = '\t' || c = '\n' || c = '\r'

/-- Drop leading whitespace characters. -/
def dropWs : List Char → List Char
  | [] => []
  | c :: t => if isWs c then dropWs t else c :: t

/-- Characters of `s.trim()`: whitespace stripped from both ends. -/
def trimChars (l : List Char) : List Char :=
  ((dropWs (dropWs l).reverse)).reverse

/-- Collapse every run of whitespace to a single space, mirroring
`replace(/\s+/g, ' ')`. The flag records whether the previous character was
whitespace. -/
def collapseAux : Bool → List Char → List Char
  | _, [] => []
  | prevWs, c :: t =>
    if isWs c then
      if prevWs then collapseAux true t else ' ' :: collapseAux true t
    else c :: collapseAux false t

/-- `e.textContent?.trim()?.replace(/\s+/g, ' ').substring(0, 120) || ''` —
the visual scanner's text normalization (part_002 line 229). -/
def jsNormalizeText (s : String) : String :=
  String.mk (List.take 120 (collapseAux false (trimChars s.data)))

/-- `e.textContent?.trim()?.substring(0, 100)` — the structural extractor's
text truncation (part_002 line 201): no whitespace collapsing. -/
def structuralText (s : String) : String :=
  String.mk (List.take 100 (trimChars s.data))

/-- Lower-casing used to model the `/i` regex flag. -/
def jsLower (s : String) : String :=
  String.mk (s.data.map Char.toLower)

/-- JS `string.length` (character count in this model). -/
def jsLen (s : String) : Nat := s.data.length

/-- Bounding box as reported by `getBoundingClientRect`; `bottom` is
`top + height` and `right` is `left + width`. -/
structure Rect where
  left : Int
  top : Int
  width : Int
  height : Int
deriving DecidableEq, Repr

structure Viewport where
  width : Int
  height : Int
deriving DecidableEq, Repr

/-- A DOM element, carrying exactly what the source reads from it. -/
structure Elem where
  tag : String
  id : Option String := none
  name : Option String := none
  placeholder : Option String := none
  href : Option String := none
  className : Option String := none
  dataTestid : Option String := none
  ariaLabel : Option String := none
  role : Option String := none
  tabindex : Option String := none
  onclick : Option String := none
  typeAttr : Option String := none
  typeProp : Option String := none
  textContent : String := ""
  visible : Bool := true
  rect : Rect := ⟨0, 0, 0, 0⟩
deriving DecidableEq, Repr

/-- The `action` field of an extracted element. -/
inductive ActionKind where
  | click
  | input
  | submit
  | none
deriving DecidableEq, Repr

/-- The `attributes` record built by both extractors (every field defaulted
to `''` by `|| ''`). -/
structure AttrRec where
  id : String
  className : String
  dataTestid : String
  ariaLabel : String
  role : String
deriving DecidableEq, Repr

/-- The plain record produced inside `$$eval` by `extractElements`, before
`mapRawElements` attaches a selector. -/
structure RawElem where
  id : String
  tag : String
  type : Option String
  name : Option String
  placeholder : Option String
  text : String
  href : Option String
  action : ActionKind
  attributes : AttrRec
deriving DecidableEq, Repr

structure ExtractedElement where
  id : String
  tag : String
  type : Option String
  name : Option String
  placeholder : Option String
  text : String
  href : Option String
  action : ActionKind
  selector : String
  attributes : AttrRec
deriving DecidableEq, Repr

structure Bbox where
  x : Int
  y : Int
  width : Int
  height : Int
deriving DecidableEq, Repr

/-- The record produced inside `$$eval` by the visual scanner's `collect`,
before `mapRawElements` attaches a selector. -/
structure RawBoxed where
  id : String
  tag : String
  type : Option String
  name : Option String
  placeholder : Option String
  text : String
  href : Option String
  action : ActionKind
  bbox : Bbox
  confidence : Rat
  attributes : AttrRec
deriving DecidableEq, Repr

structure BoxedElement where
  id : String
  tag : String
  type : Option String
  name : Option String
  placeholder : Option String
  text : String
  href : Option String
  action : ActionKind
  bbox : Bbox
  confidence : Rat
  selector : String
  attributes : AttrRec
deriving DecidableEq, Repr

/-- Whether an element matches the `INTERACTIVE_SELECTOR`
`button, a[href], input:not([type="hidden"]), textarea, select,
[role="button"], [tabindex]:not([tabindex="-1"])` (part_002 line 160).
Attribute selectors test attributes, so `input:not([type="hidden"])` looks at
the `type` attribute, and `[tabindex]` means the attribute is present. -/
def matchesInteractive (e : Elem) : Bool :=
  decide (e.tag = "button") ||
  (decide (e.tag = "a") && e.href.isSome) ||
  (decide (e.tag = "input") && !(decide (e.typeAttr = some "hidden"))) ||
  decide (e.tag = "textarea") ||
  decide (e.tag = "select") ||
  decide (e.role = some "button") ||
  (e.tabindex.isSome && !(decide (e.tabindex = some "-1")))

/-- Whether an element matches the widened fallback selector
`a, button, input, textarea, select, [role="button"], [onclick], h1, h2, h3,
p, div, span` (part_002 line 278). -/
def matchesWidened (e : Elem) : Bool :=
  decide (e.tag = "a") || decide (e.tag = "button") ||
  decide (e.tag = "input") || decide (e.tag = "textarea") ||
  decide (e.tag = "select") || decide (e.role = some "button") ||
  e.onclick.isSome ||
  decide (e.tag = "h1") || decide (e.tag = "h2") || decide (e.tag = "h3") ||
  decide (e.tag = "p") || decide (e.tag = "div") || decide (e.tag = "span")

/-- Action classification of `extractElements` (part_002 lines 191-193):
`tabindex` is tested for JS truthiness (the raw attribute string). -/
def structuralAction (e : Elem) : ActionKind :=
  if decide (e.tag = "button") || decide (e.tag = "a") ||
     decide (e.role = some "button") || (truthyStr e.tabindex).isSome then
    ActionKind.click
  else if decide (e.tag = "input") || decide (e.tag = "textarea") ||
          decide (e.tag = "select") then
    ActionKind.input
  else
    ActionKind.none

/-- Action classification inside the visual scanner's `collect`
(part_002 line 245): identical, except `textOnly` forces `click`. -/
def boxedAction (e : Elem) (textOnly : Bool) : ActionKind :=
  if decide (e.tag = "button") || decide (e.tag = "a") ||
     decide (e.role = some "button") || (truthyStr e.tabindex).isSome ||
     textOnly then
    ActionKind.click
  else if decide (e.tag = "input") || decide (e.tag = "textarea") ||
          decide (e.tag = "select") then
    ActionKind.input
  else
    ActionKind.none

/-- One element of the array built inside `$$eval` by `extractElements`
(part_002 lines 177-212); `i` is the element's index in the match list, used
for the synthetic id `el-<i>`. -/
def rawOf (i : Nat) (e : Elem) : RawElem :=
  { id := (truthyStr e.id).getD ("el-" ++ toString i)
  , tag := e.tag
  , type := truthyStr e.typeProp
  , name := truthyStr e.name
  , placeholder := truthyStr e.placeholder
  , text := structuralText e.textContent
  , href := truthyStr e.href
  , action := structuralAction e
  , attributes :=
      { id := e.id.getD ""
      , className := e.className.getD ""
      , dataTestid := e.dataTestid.getD ""
      , ariaLabel := e.ariaLabel.getD ""
      , role := e.role.getD "" } }

/-- `els.map((e, i) => f(e, i))`: map with the element's index. -/
def mapWithIdx {α β : Type} (f : Nat → α → β) : Nat → List α → List β
  | _, [] => []
  | i, a :: t => f i a :: mapWithIdx f (i + 1) t

/-- Argument record of `generateSelector`. -/
structure GenAttrs where
  id : Option String
  dataTestid : Option String
  ariaLabel : Option String
  name : Option String
  tag : Option String
deriving DecidableEq, Repr

/-- `generateSelector` (part_002 lines 285-291): first JS-truthy attribute
wins, in the order id, data-testid, aria-label, name, tag; `'element'` is the
last resort. -/
def generateSelector (a : GenAttrs) : String :=
  match truthyStr a.id with
  | some s => "#" ++ s
  | Option.none =>
  match truthyStr a.dataTestid with
  | some s => "[data-testid=\"" ++ s ++ "\"]"
  | Option.none =>
  match truthyStr a.ariaLabel with
  | some s => "[aria-label=\"" ++ s ++ "\"]"
  | Option.none =>
  match truthyStr a.name with
  | some s => "[name=\"" ++ s ++ "\"]"
  | Option.none => (truthyStr a.tag).getD "element"

/-- Selector attachment of `mapRawElements` (part_002 lines 162-173):
`id`/`dataTestid`/`ariaLabel` come from the `''`-defaulted `attributes`
record re-filtered through `|| undefined`. -/
def attachSelector (r : RawElem) : ExtractedElement :=
  { id := r.id, tag := r.tag, type := r.type, name := r.name
  , placeholder := r.placeholder, text := r.text, href := r.href
  , action := r.action, attributes := r.attributes
  , selector := generateSelector
      { id := truthyStr (some r.attributes.id)
      , dataTestid := truthyStr (some r.attributes.dataTestid)
      , ariaLabel := truthyStr (some r.attributes.ariaLabel)
      , name := r.name
      , tag := some r.tag } }

def mapRawElements (raw : List RawElem) : List ExtractedElement :=
  raw.map attachSelector

/-- `extractElements` (part_002 lines 175-216): one `$$eval` over the
combined interactive selector — `querySelectorAll` returns all matches in
document order, with no visibility filtering — then `mapRawElements`. -/
def extractElements (dom : List Elem) : List ExtractedElement :=
  mapRawElements (mapWithIdx rawOf 0 (dom.filter matchesInteractive))

/-- The geometric visibility test of the visual scanner (part_002 line 226):
`rect.width > 8 && rect.height > 8 && rect.bottom > 0 && rect.right > 0 &&
rect.left < vw && rect.top < vh`. -/
def codeVisible (r : Rect) (vw vh : Int) : Bool :=
  decide (8 < r.width) && decide (8 < r.height) &&
  decide (0 < r.top + r.height) && decide (0 < r.left + r.width) &&
  decide (r.left < vw) && decide (r.top < vh)

/-- One element of the array built inside the visual scanner's `collect`
(part_002 lines 224-272): `null` for invisible elements and for
fallback-tier elements with normalized text shorter than 2 characters;
`Math.round` is the identity on the integer coordinates of this model and
`Math.max(0, _)` clamps the origin. -/
def collectStep (vw vh : Int) (conf : Rat) (textOnly : Bool) (i : Nat)
    (e : Elem) : Option RawBoxed :=
  if codeVisible e.rect vw vh then
    if textOnly && decide (jsLen (jsNormalizeText e.textContent) < 2) then Option.none
    else some
      { id := (truthyStr e.id).getD ("el-" ++ toString i)
      , tag := e.tag
      , type := truthyStr e.typeProp
      , name := truthyStr e.name
      , placeholder := truthyStr e.placeholder
      , text := jsNormalizeText e.textContent
      , href := truthyStr e.href
      , action := boxedAction e textOnly
      , bbox := { x := max 0 e.rect.left, y := max 0 e.rect.top
                , width := e.rect.width, height := e.rect.height }
      , confidence := conf
      , attributes :=
          { id := e.id.getD ""
          , className := e.className.getD ""
          , dataTestid := e.dataTestid.getD ""
          , ariaLabel := e.ariaLabel.getD ""
          , role := e.role.getD "" } }
  else Option.none

/-- `collect(selector, confidence, includeTextOnly)` (part_002 lines
219-273): `.map(...).filter(Boolean)` over the matches in document order. -/
def collectTier (sel : Elem → Bool) (conf : Rat) (textOnly : Bool)
    (dom : List Elem) (vw vh : Int) : List RawBoxed :=
  (mapWithIdx (collectStep vw vh conf textOnly) 0 (dom.filter sel)).filterMap id

/-- Selector attachment for boxed records (`mapRawElements` spreads every
raw field, so bbox and confidence are preserved). -/
def attachSelectorBoxed (r : RawBoxed) : BoxedElement :=
  { id := r.id, tag := r.tag, type := r.type, name := r.name
  , placeholder := r.placeholder, text := r.text, href := r.href
  , action := r.action, bbox := r.bbox, confidence := r.confidence
  , attributes := r.attributes
  , selector := generateSelector
      { id := truthyStr (some r.attributes.id)
      , dataTestid := truthyStr (some r.attributes.dataTestid)
      , ariaLabel := truthyStr (some r.attributes.ariaLabel)
      , name := r.name
      , tag := some r.tag } }

def mapRawBoxed (raw : List RawBoxed) : List BoxedElement :=
  raw.map attachSelectorBoxed

/-- `extractVisibleElementsWithBoxes` (part_002 lines 218-283): primary tier
at confidence 0.85; if it produced nothing (`!raw.length`), the widened tier
at confidence 0.55 with the text-only filter, sliced to the first 50. -/
def extractVisibleElementsWithBoxes (dom : List Elem) (vw vh : Int) :
    List BoxedElement :=
  let primary := collectTier matchesInteractive (0.85 : Rat) false dom vw vh
  if primary.length = 0 then
    mapRawBoxed ((collectTier matchesWidened (0.55 : Rat) true dom vw vh).take 50)
  else
    mapRawBoxed primary

/-- `StealthOptions` (part_002 lines 21-26); `rotateUA` is used only for
truthiness, so the absent case is modelled as `false`. -/
structure StealthOptions where
  proxy : Option String := none
  userAgent : Option String := none
  rotateUA : Bool := false
  viewport : Option Viewport := none
deriving DecidableEq, Repr

/-- The fixed user-agent rotation table (part_002 lines 28-33). -/
def USER_AGENTS : List String :=
  [ "Mozilla/5.0 (Windows NT 10.0; Win64; x64) AppleWebKit/537.36 (KHTML, like Gecko) Chrome/120.0.0.0 Safari/537.36"
  , "Mozilla/5.0 (Macintosh; Intel Mac OS X 10_15_7) AppleWebKit/537.36 (KHTML, like Gecko) Chrome/120.0.0.0 Safari/537.36"
  , "Mozilla/5.0 (Windows NT 10.0; Win64; x64; rv:121.0) Gecko/20100101 Firefox/121.0"
  , "Mozilla/5.0 (Macintosh; Intel Mac OS X 10_15_7) AppleWebKit/605.1.15 (KHTML, like Gecko) Version/17.2 Safari/605.1.15" ]

/-- The fixed viewport rotation table (part_002 lines 35-40). -/
def VIEWPORTS : List Viewport :=
  [⟨1920, 1080⟩, ⟨1440, 900⟩, ⟨1366, 768⟩, ⟨1280, 720⟩]

/-- `getNextUserAgent` (part_002 lines 45-49): reads the entry at the current
cursor, then advances the cursor modulo the table length, and returns the
entry it read. The cursor is the explicit `uaIndex` state here. -/
def getNextUserAgent (uaIndex : Nat) : String × Nat :=
  (USER_AGENTS.getD uaIndex "", (uaIndex + 1) % USER_AGENTS.length)

/-- `getNextViewport` (part_002 lines 51-55). -/
def getNextViewport (viewportIndex : Nat) : Viewport × Nat :=
  (VIEWPORTS.getD viewportIndex ⟨0, 0⟩, (viewportIndex + 1) % VIEWPORTS.length)

/-- The mutable state owned by the module: the `BrowserManager` fields
(`browser`, `options`) plus the module-level rotation cursors. Browser
process handles are identified by numbers drawn from `nextHandle`, so a
relaunch always yields a fresh reference. -/
structure ManagerState where
  browser : Option Nat := none
  nextHandle : Nat := 0
  options : StealthOptions := {}
  uaIndex : Nat := 0
  viewportIndex : Nat := 0
deriving DecidableEq, Repr

/-- `getBrowser` (part_002 lines 68-89): lazily launch the process. -/
def getBrowser (s : ManagerState) : Nat × ManagerState :=
  match s.browser with
  | some b => (b, s)
  | Option.none =>
    (s.nextHandle,
     { s with browser := some s.nextHandle, nextHandle := s.nextHandle + 1 })

/-- The observable outcome of one `withPage` call: the work function's
result (normal return or thrown error), the manager state afterwards, the
fingerprint given to the context, and how many times the context and the
browser process were closed during the call. -/
structure WithPageResult (α : Type) where
  result : Except String α
  state : ManagerState
  usedUserAgent : Option String
  usedViewport : Viewport
  contextCloses : Nat
  browserCloses : Nat

/-- `withPage` (part_002 lines 91-150): acquire the browser, derive the
effective user-agent (`options.userAgent`, else a rotated one when
`rotateUA`) and viewport (`options.viewport`, else rotated), open one
context, run the work function inside `try`, and close the context in
`finally` — so the context close happens exactly once whether the work
function returns or throws, and the browser process is never closed here.
The work function is an `Except` value covering both exit paths. -/
def withPage {α : Type} (s : ManagerState) (fn : Except String α) :
    WithPageResult α :=
  let br := getBrowser s
  let s1 := br.2
  let uaPick : Option String × ManagerState :=
    match truthyStr s1.options.userAgent with
    | some u => (some u, s1)
    | Option.none =>
      if s1.options.rotateUA then
        let p := getNextUserAgent s1.uaIndex
        (some p.1, { s1 with uaIndex := p.2 })
      else (Option.none, s1)
  let s2 := uaPick.2
  let vpPick : Viewport × ManagerState :=
    match s2.options.viewport with
    | some v => (v, s2)
    | Option.none =>
      let q := getNextViewport s2.viewportIndex
      (q.1, { s2 with viewportIndex := q.2 })
  { result := fn
  , state := vpPick.2
  , usedUserAgent := uaPick.1
  , usedViewport := vpPick.1
  , contextCloses := 1
  , browserCloses := 0 }

/-- N consecutive `withPage` calls with a trivially succeeding work function,
collecting the user-agent issued to each session. -/
def runSessions (s : ManagerState) : Nat → List (Option String) × ManagerState
  | 0 => ([], s)
  | n + 1 =>
    let r := withPage s (Except.ok ())
    let rest := runSessions r.state n
    (r.usedUserAgent :: rest.1, rest.2)

/-- The state as `setOptions` returns, plus whether a close of the browser
process was initiated during the call. -/
structure ConfigResult where
  state : ManagerState
  closeInitiated : Bool
deriving DecidableEq, Repr

/-- `setOptions` (part_002 lines 61-66): stores the new options wholesale,
then calls `this.close()` WITHOUT awaiting it. Only the synchronous prefix of
`close()` runs before `setOptions` returns: the `if (this.browser)` check and
the call that initiates `this.browser.close()`. The assignment
`this.browser = null` sits after the `await` inside `close()` and therefore
runs only when the engine finishes closing, after `setOptions` has returned;
it is modelled separately by `finishPendingClose`. `setOptions` is total: it
never throws, also when no process exists. -/
def setOptions (s : ManagerState) (o : StealthOptions) : ConfigResult :=
  let s1 := { s with options := o }
  if s1.browser.isSome then { state := s1, closeInitiated := true }
  else { state := s1, closeInitiated := false }

/-- The deferred continuation of the un-awaited `close()` call inside
`setOptions`: once `browser.close()` resolves, `this.browser = null` runs. -/
def finishPendingClose (c : ConfigResult) : ManagerState :=
  if c.closeInitiated then { c.state with browser := Option.none } else c.state

/-- `close()` (part_002 lines 152-157) when called and awaited directly:
tears down the handle if present; returns the number of process closes. -/
def closeManager (s : ManagerState) : ManagerState × Nat :=
  match s.browser with
  | some _ => ({ s with browser := Option.none }, 1)
  | Option.none => (s, 0)

/-- What the `/scan-screenshot` work function returns (src/src/index.ts lines
113-122): `status` is `response?.status() ?? null`, `title` is the page
title (absent pages modelled as `none`; the route guards with
`scan.title || ''`). -/
structure ScanData where
  status : Option Nat := none
  finalUrl : String := ""
  title : Option String := none
  elements : List BoxedElement := []
  screenshot : String := ""
deriving DecidableEq, Repr

/-- The four title patterns of the blocked-page regex
`/access denied|forbidden|captcha|attention required/i`. -/
def blockPatterns : List String :=
  ["access denied", "forbidden", "captcha", "attention required"]

/-- `blockedByStatus` (index.ts line 124): strict equality against 401, 403,
429, so a `null` status never matches. -/
def blockedByStatus (status : Option Nat) : Bool :=
  decide (status = some 401) || decide (status = some 403) ||
  decide (status = some 429)

/-- `pat` occurs as a contiguous run inside `l`. -/
def startsWithSeq : List Char → List Char → Bool
  | [], _ => true
  | _ :: _, [] => false
  | p :: ps, c :: cs => p == c && startsWithSeq ps cs

def containsSeq (pat : List Char) : List Char → Bool
  | [] => startsWithSeq pat []
  | c :: cs => startsWithSeq pat (c :: cs) || containsSeq pat cs

/-- `blockedByTitle` (index.ts line 125): the alternation regex with the `/i`
flag tested against `scan.title || ''`, i.e. some pattern occurs in the
lower-cased title. -/
def blockedByTitle (title : Option String) : Bool :=
  blockPatterns.any (fun p => containsSeq p.data (jsLower (title.getD "")).data)

/-- The part of the route's JSON answer that the claims are about: which
branch answered, and whether results/screenshot were included. -/
structure ScanResponse where
  httpStatus : Nat
  blocked : Bool
  elements : List BoxedElement
  screenshot : Option String
deriving DecidableEq, Repr

/-- The `/scan-screenshot` response logic after the scan completes (index.ts
lines 124-169): blocked branch (results withheld: empty elements, no
screenshot field), zero-elements branch, success branch. -/
def scanRespond (s : ScanData) : ScanResponse :=
  if blockedByStatus s.status || blockedByTitle s.title then
    { httpStatus := 422, blocked := true, elements := [], screenshot := Option.none }
  else if s.elements.length = 0 then
    { httpStatus := 422, blocked := false, elements := [], screenshot := some s.screenshot }
  else
    { httpStatus := 200, blocked := false, elements := s.elements, screenshot := some s.screenshot }

/-
Reference definitions used to state amended claims, and concrete inputs for
counterexamples and witnesses.
-/

/-- Reference extraction in explicit document order: a single pass over the
DOM that converts each interactive-taxonomy match while numbering the
matches consecutively. Used to state what ordering the live extractor
actually produces. -/
def rawElementsInDocumentOrder : Nat → List Elem → List RawElem
  | _, [] => []
  | i, e :: t =>
    if matchesInteractive e then
      rawOf i e :: rawElementsInDocumentOrder (i + 1) t
    else
      rawElementsInDocumentOrder i t

/-- Taxonomy-category rank in the order claimed by the spec: buttons, links,
inputs, textareas, selects, role=button, tabindex. -/
def categoryRank (x : ExtractedElement) : Nat :=
  if x.tag = "button" then 0
  else if x.tag = "a" then 1
  else if x.tag = "input" then 2
  else if x.tag = "textarea" then 3
  else if x.tag = "select" then 4
  else if x.attributes.role = "button" then 5
  else 6

/-- Whether a list of ranks is non-decreasing (category-grouped order). -/
def nonDecreasing : List Nat → Bool
  | [] => true
  | [_] => true
  | a :: b :: t => decide (a ≤ b) && nonDecreasing (b :: t)

/-- The box `[left, left+width) × [top, top+height)` has nonzero overlap
with the viewport rectangle `[0, vw) × [0, vh)` — the spec's formulation of
the geometric test. -/
def overlapsViewport (r : Rect) (vw vh : Int) : Prop :=
  max r.left 0 < min (r.left + r.width) vw ∧
  max r.top 0 < min (r.top + r.height) vh

/-- The box lies entirely outside the viewport rectangle
`[0, vw) × [0, vh)`: it ends at or before 0, or starts at or beyond the
viewport edge, on one of the two axes. -/
def entirelyOutsideViewport (r : Rect) (vw vh : Int) : Prop :=
  r.left + r.width ≤ 0 ∨ vw ≤ r.left ∨ r.top + r.height ≤ 0 ∨ vh ≤ r.top

/-- Mark an element as engine-invisible: hidden by styling and with zero
rendered size. -/
def hideElem (e : Elem) : Elem :=
  { e with visible := false, rect := ⟨0, 0, 0, 0⟩ }

/-- A button that the engine reports as not visible (zero rendered size,
hidden by styling). -/
def demoHiddenButton : Elem :=
  { tag := "button", textContent := "Hidden", visible := false }

/-- A plain visible link followed by a plain visible button, in that
document order. -/
def demoAnchor : Elem :=
  { tag := "a", href := some "/home", textContent := "Home"
  , rect := ⟨0, 0, 50, 20⟩ }

def demoButton : Elem :=
  { tag := "button", textContent := "Ok", rect := ⟨0, 30, 50, 20⟩ }

/-- A button with `id="go"`. -/
def buttonGo : Elem :=
  { tag := "button", id := some "go", textContent := "Go"
  , rect := ⟨0, 0, 40, 20⟩ }

/-- An `<input name="q">` with no id, data-testid or aria-label. -/
def inputQ : Elem :=
  { tag := "input", name := some "q", typeProp := some "text"
  , rect := ⟨0, 0, 120, 20⟩ }

/-- A visible paragraph with clickable-looking text, matching only the
widened fallback taxonomy. -/
def demoPara : Elem :=
  { tag := "p", textContent := "Click here to continue"
  , rect := ⟨10, 10, 100, 20⟩ }

/-- A visible button inside the viewport, for the primary tier. -/
def demoVisibleButton : Elem :=
  { tag := "button", textContent := "Ok", rect := ⟨0, 0, 50, 20⟩ }

/-- A button whose bounding box lies entirely to the right of the
viewport. -/
def demoOffscreen : Elem :=
  { tag := "button", textContent := "Far away", rect := ⟨2000, 10, 50, 20⟩ }

/-- A manager state with a live browser process handle. -/
def demoLiveState : ManagerState :=
  { browser := some 7, nextHandle := 8 }

def demoNewOptions : StealthOptions :=
  { proxy := some "http://proxy:8080", rotateUA := true }

/-- A fresh manager state configured for user-agent rotation. -/
def demoRotatingState : ManagerState :=
  { options := { rotateUA := true } }

/-- A scan blocked by HTTP status 403, where extraction did find an element
and a screenshot was captured. -/
def demoBlockedScan : ScanData :=
  { status := some 403, title := some "Some Page"
  , elements := [attachSelectorBoxed
      { id := "el-0", tag := "button", type := Option.none, name := Option.none
      , placeholder := Option.none, text := "Ok", href := Option.none
      , action := ActionKind.click, bbox := ⟨0, 0, 50, 20⟩
      , confidence := (0.85 : Rat)
      , attributes := ⟨"", "", "", "", ""⟩ }]
  , screenshot := "iVBORw0KGgo=" }

/-- A scan that produced no HTTP response and an empty title. -/
def demoNullScan : ScanData :=
  { status := Option.none, title := some "", elements := []
  , screenshot := "iVBORw0KGgo=" }

/-
Helper lemmas.
-/

theorem mapWithIdx_length {α β : Type} (f : Nat → α → β) :
    ∀ (l : List α) (i : Nat), (mapWithIdx f i l).length = l.length := by
  intro l
  induction l with
  | nil => intro i; rfl
  | cons a t ih => intro i; simp [mapWithIdx, ih]

theorem mem_mapWithIdx {α β : Type} (f : Nat → α → β) :
    ∀ (l : List α) (i : Nat) (x : β),
      x ∈ mapWithIdx f i l → ∃ j a, a ∈ l ∧ x = f j a := by
  intro l
  induction l with
  | nil => intro i x h; simp [mapWithIdx] at h
  | cons a t ih =>
    intro i x h
    simp only [mapWithIdx, List.mem_cons] at h
    rcases h with h | h
    · exact ⟨i, a, List.mem_cons_self a t, h⟩
    · rcases ih (i + 1) x h with ⟨j, b, hb, hx⟩
      exact ⟨j, b, List.mem_cons_of_mem a hb, hx⟩

theorem startsWithSeq_iff (p : List Char) :
    ∀ l : List Char, startsWithSeq p l = true ↔ p <+: l := by
  induction p with
  | nil => intro l; simp [startsWithSeq, List.nil_prefix]
  | cons c cs ih =>
    intro l
    cases l with
    | nil => simp [startsWithSeq]
    | cons d ds =>
      simp [startsWithSeq, Bool.and_eq_true, beq_iff_eq, ih,
        List.cons_prefix_cons]

theorem containsSeq_iff (p : List Char) :
    ∀ l : List Char, containsSeq p l = true ↔ p <:+: l := by
  intro l
  induction l with
  | nil => simp [containsSeq, startsWithSeq_iff, List.infix_nil, List.prefix_nil]
  | cons c cs ih =>
    simp [containsSeq, Bool.or_eq_true, startsWithSeq_iff, ih,
      List.infix_cons_iff]

theorem withPage_rotating {α : Type} (s : ManagerState) (fn : Except String α)
    (h1 : truthyStr s.options.userAgent = Option.none)
    (h2 : s.options.rotateUA = true) :
    (withPage s fn).usedUserAgent = some (USER_AGENTS.getD s.uaIndex "") ∧
    (withPage s fn).state.uaIndex = (s.uaIndex + 1) % USER_AGENTS.length ∧
    (withPage s fn).state.options = s.options ∧
    (withPage s fn).state.browser.isSome = true := by
  unfold withPage getBrowser getNextUserAgent
  cases hb : s.browser <;>
    simp [h1, h2] <;>
    cases hv : s.options.viewport <;>
      simp [getNextViewport, h1, h2, hv, hb]

theorem matchesInteractive_hide (e : Elem) :
    matchesInteractive (hideElem e) = matchesInteractive e := rfl

theorem rawOf_hide (i : Nat) (e : Elem) :
    rawOf i (hideElem e) = rawOf i e := rfl

theorem extract_hide_aux :
    ∀ (l : List Elem) (i : Nat),
      mapWithIdx rawOf i ((l.map hideElem).filter matchesInteractive) =
      mapWithIdx rawOf i (l.filter matchesInteractive) := by
  intro l
  induction l with
  | nil => intro i; rfl
  | cons e t ih =>
    intro i
    simp only [List.map_cons, List.filter_cons, matchesInteractive_hide]
    by_cases hm : matchesInteractive e = true
    · simp only [hm, if_true, mapWithIdx, rawOf_hide, ih]
    · rw [Bool.not_eq_true] at hm
      simp [hm, ih]

theorem rawElementsInDocumentOrder_eq :
    ∀ (l : List Elem) (i : Nat),
      rawElementsInDocumentOrder i l =
      mapWithIdx rawOf i (l.filter matchesInteractive) := by
  intro l
  induction l with
  | nil => intro i; rfl
  | cons e t ih =>
    intro i
    simp only [rawElementsInDocumentOrder, List.filter_cons]
    by_cases hm : matchesInteractive e = true
    · simp only [hm, if_true, mapWithIdx, ih]
    · rw [Bool.not_eq_true] at hm
      simp [hm, ih]

theorem collectStep_textOnly_props (vw vh : Int) (conf : Rat) (i : Nat)
    (e : Elem) (rb : RawBoxed)
    (h : collectStep vw vh conf true i e = some rb) :
    rb.confidence = conf ∧ rb.action = ActionKind.click ∧
    2 ≤ jsLen rb.text ∧ jsLen rb.text ≤ 120 := by
  rw [collectStep] at h
  split at h
  · split at h
    · simp at h
    · rename_i hguard
      rw [Option.some.injEq] at h
      subst h
      refine ⟨rfl, by simp [boxedAction], ?_, ?_⟩
      · show 2 ≤ jsLen (jsNormalizeText e.textContent)
        simp only [Bool.true_and, decide_eq_true_eq] at hguard
        omega
      · show jsLen (jsNormalizeText e.textContent) ≤ 120
        exact List.length_take_le _ _
  · simp at h

/-
Claim theorems.
-/

/-- Claim C1, counterexample: a button that the engine reports as not
visible (zero rendered size, hidden by styling) still appears in the output
of the live `extractElements`, which runs one `$$eval` over the selector
matches with no visibility check — so the claim that invisible taxonomy
matches never appear in the result is false. -/
theorem hidden_button_still_extracted :
    demoHiddenButton.visible = false ∧
    demoHiddenButton.rect = ⟨0, 0, 0, 0⟩ ∧
    matchesInteractive demoHiddenButton = true ∧
    (extractElements [demoHiddenButton]).length = 1 := by
  decide

/-- Claim C1 (amended): structural extraction returns a record for every
match of the interactive taxonomy regardless of engine-reported visibility —
hiding every element (zero size, hidden by styling) does not change the
output at all, and the output has exactly one record per selector match. -/
theorem extractElements_ignores_visibility (dom : List Elem) :
    extractElements (dom.map hideElem) = extractElements dom ∧
    (extractElements dom).length = (dom.filter matchesInteractive).length := by
  constructor
  · unfold extractElements
    rw [extract_hide_aux]
  · unfold extractElements mapRawElements
    rw [List.length_map, mapWithIdx_length]

/-- Claim C2: for every work function (modelled by its outcome, a normal
return or a thrown error), `withPage` closes the session context exactly
once, never closes the browser process (which is still live afterwards), and
propagates the work function's outcome unchanged. -/
theorem withPage_closes_context_once (s : ManagerState)
    (fn : Except String Nat) :
    (withPage s fn).contextCloses = 1 ∧
    (withPage s fn).browserCloses = 0 ∧
    (withPage s fn).result = fn ∧
    (withPage s fn).state.browser.isSome = true := by
  refine ⟨rfl, rfl, rfl, ?_⟩
  unfold withPage getBrowser getNextUserAgent getNextViewport
  cases hb : s.browser <;>
    cases hua : truthyStr s.options.userAgent <;>
      cases hr : s.options.rotateUA <;>
        cases hv : s.options.viewport <;>
          simp [hb, hua, hr, hv]

/-- Claim C3, counterexample: with a live browser handle, the handle
reference observed right after `setOptions` returns is the SAME as before —
`this.close()` is not awaited, so `this.browser = null` has not run yet —
refuting the claim that the handle is closed synchronously before the
operation returns and that the reference observed after configure differs. -/
theorem setOptions_leaves_handle_unchanged_at_return :
    demoLiveState.browser = some 7 ∧
    (setOptions demoLiveState demoNewOptions).state.browser = some 7 := by
  decide

/-- Claim C3 (amended): `setOptions` replaces the configuration wholesale
and never throws (it is a total function, also when no process exists); when
a handle exists it initiates an asynchronous close, but the handle field is
unchanged at the moment `setOptions` returns and is cleared only when the
initiated close completes. -/
theorem setOptions_replaces_options_and_defers_close
    (s : ManagerState) (o : StealthOptions) :
    (setOptions s o).state.options = o ∧
    (setOptions s o).state.browser = s.browser ∧
    (setOptions s o).closeInitiated = s.browser.isSome ∧
    (finishPendingClose (setOptions s o)).browser = Option.none ∧
    (finishPendingClose (setOptions s o)).options = o := by
  cases hb : s.browser <;>
    simp [setOptions, finishPendingClose, hb]

/-- Claim C5, counterexample: for a DOM holding a link followed by a button
(in document order), the live `extractElements` — one combined
`querySelectorAll`, which yields document order — returns the link first,
so the output is NOT grouped by taxonomy category (buttons first). -/
theorem extraction_order_not_category_grouped :
    matchesInteractive demoAnchor = true ∧
    matchesInteractive demoButton = true ∧
    (extractElements [demoAnchor, demoButton]).map categoryRank = [1, 0] ∧
    nonDecreasing ((extractElements [demoAnchor, demoButton]).map categoryRank)
      = false := by
  decide

/-- Claim C5 (amended): structural extraction output is the document-order
sequence of interactive-taxonomy matches, each converted in place with
consecutively numbered synthetic ids — so relative order within a category
is document order, but categories are interleaved, not grouped. -/
theorem extractElements_document_order (dom : List Elem) :
    extractElements dom = mapRawElements (rawElementsInDocumentOrder 0 dom) := by
  unfold extractElements
  rw [rawElementsInDocumentOrder_eq]

/-- Claim C9, counterexample: `getNextUserAgent` advances the cursor to
`(0+1) % length` but returns the entry at the OLD cursor position 0, which
differs from the entry at the new position — refuting the claimed
"returns the table entry at the new cursor position" mechanism. -/
theorem getNextUserAgent_returns_pre_advance_entry :
    (getNextUserAgent 0).2 = (0 + 1) % USER_AGENTS.length ∧
    (getNextUserAgent 0).1 = USER_AGENTS.getD 0 "" ∧
    ¬ (getNextUserAgent 0).1
        = USER_AGENTS.getD ((0 + 1) % USER_AGENTS.length) "" := by
  decide

/-- Claim C9 (amended): each call returns the table entry at the current
(pre-advance) cursor position and then advances the cursor modulo the table
length; consequently, for every state with `rotateUA = true` and no fixed
user-agent, N consecutive session creations issue user-agents in round-robin
order through the table — the k-th session gets entry
`(uaIndex + k) mod length`. -/
theorem rotation_round_robin :
    ∀ (N : Nat) (s : ManagerState) (k : Nat),
      truthyStr s.options.userAgent = Option.none →
      s.options.rotateUA = true →
      s.uaIndex < USER_AGENTS.length →
      k < N →
      (runSessions s N).1.getD k Option.none =
        some (USER_AGENTS.getD ((s.uaIndex + k) % USER_AGENTS.length) "") := by
  intro N
  induction N with
  | zero => intro s k h1 h2 h3 h4; omega
  | succ n ih =>
    intro s k h1 h2 h3 h4
    have hw := withPage_rotating s (Except.ok ()) h1 h2
    cases k with
    | zero =>
      simp only [runSessions]
      rw [List.getD_cons_zero, hw.1, Nat.add_zero, Nat.mod_eq_of_lt h3]
    | succ k =>
      simp only [runSessions]
      rw [List.getD_cons_succ]
      have hlen : USER_AGENTS.length = 4 := rfl
      have h1' : truthyStr (withPage s (Except.ok ())).state.options.userAgent
          = Option.none := by
        rw [hw.2.2.1]; exact h1
      have h2' : (withPage s (Except.ok ())).state.options.rotateUA = true := by
        rw [hw.2.2.1]; exact h2
      have h3' : (withPage s (Except.ok ())).state.uaIndex
          < USER_AGENTS.length := by
        rw [hw.2.1]
        exact Nat.mod_lt _ (by rw [hlen]; omega)
      have hrec := ih (withPage s (Except.ok ())).state k h1' h2' h3' (by omega)
      have hidx : ((s.uaIndex + 1) % USER_AGENTS.length + k) % USER_AGENTS.length
          = (s.uaIndex + (k + 1)) % USER_AGENTS.length := by
        rw [hlen]
        omega
      rw [hrec, hw.2.1, hidx]

/-- Witness for `rotation_round_robin` at a fresh rotating state: the sixth
session gets the entry at cursor `(0 + 5) mod 4`. -/
theorem rotation_round_robin_witness :
    (runSessions demoRotatingState 6).1.getD 5 Option.none =
      some (USER_AGENTS.getD
        ((demoRotatingState.uaIndex + 5) % USER_AGENTS.length) "") :=
  rotation_round_robin 6 demoRotatingState 5 rfl rfl (by decide) (by decide)

instance (r : Rect) (vw vh : Int) : Decidable (overlapsViewport r vw vh) := by
  unfold overlapsViewport
  exact inferInstance

instance (r : Rect) (vw vh : Int) : Decidable (entirelyOutsideViewport r vw vh) := by
  unfold entirelyOutsideViewport
  exact inferInstance

/-- Claim C7: for positive viewport dimensions, the scanner's geometric test
holds exactly when the box is strictly larger than 8×8 and has nonzero
overlap with `[0,vw) × [0,vh)`; and `collectStep` — the per-element body of
BOTH tiers (primary and fallback are `collectStep` filter-maps) — returns
nothing for any element whose box lies entirely outside the viewport. -/
theorem geometric_visibility_characterization (vw vh : Int)
    (hw : 0 < vw) (hh : 0 < vh) :
    (∀ r : Rect, codeVisible r vw vh = true ↔
      (8 < r.width ∧ 8 < r.height ∧ overlapsViewport r vw vh)) ∧
    (∀ (e : Elem) (conf : Rat) (textOnly : Bool) (i : Nat),
      entirelyOutsideViewport e.rect vw vh →
      collectStep vw vh conf textOnly i e = Option.none) := by
  constructor
  · intro r
    simp only [codeVisible, overlapsViewport, Bool.and_eq_true,
      decide_eq_true_eq, max_lt_iff, lt_min_iff]
    omega
  · intro e conf textOnly i hout
    have hfalse : codeVisible e.rect vw vh = false := by
      rw [Bool.eq_false_iff]
      intro hcv
      simp only [codeVisible, Bool.and_eq_true, decide_eq_true_eq] at hcv
      unfold entirelyOutsideViewport at hout
      omega
    rw [collectStep]
    simp [hfalse]

/-- Witness for `geometric_visibility_characterization` at viewport
1280×720: an in-viewport 100×20 box passes the test, and an element whose
box starts at x=2000 (entirely right of the viewport) is dropped by
`collectStep`. -/
theorem geometric_visibility_characterization_witness :
    codeVisible ⟨10, 10, 100, 20⟩ 1280 720 = true ∧
    collectStep 1280 720 (0.85 : Rat) false 0 demoOffscreen = Option.none := by
  have h := geometric_visibility_characterization 1280 720 (by decide) (by decide)
  constructor
  · exact (h.1 ⟨10, 10, 100, 20⟩).mpr (by decide)
  · exact h.2 demoOffscreen (0.85 : Rat) false 0 (by decide)

/-- Claim C4: the fallback tier runs only when the primary tier yields zero
elements (a non-empty primary tier is returned as-is); when the primary tier
is empty, the result is the widened tier capped at 50, and every returned
element has confidence exactly 0.55, action forced to `click`, and non-empty
normalized text of between 2 and 120 characters. -/
theorem fallback_tier_gating_and_properties (dom : List Elem) (vw vh : Int) :
    (collectTier matchesInteractive (0.85 : Rat) false dom vw vh ≠ [] →
      extractVisibleElementsWithBoxes dom vw vh =
        mapRawBoxed (collectTier matchesInteractive (0.85 : Rat) false dom vw vh)) ∧
    (collectTier matchesInteractive (0.85 : Rat) false dom vw vh = [] →
      extractVisibleElementsWithBoxes dom vw vh =
        mapRawBoxed
          ((collectTier matchesWidened (0.55 : Rat) true dom vw vh).take 50) ∧
      (extractVisibleElementsWithBoxes dom vw vh).length ≤ 50 ∧
      ∀ b ∈ extractVisibleElementsWithBoxes dom vw vh,
        b.confidence = (0.55 : Rat) ∧ b.action = ActionKind.click ∧
        b.text ≠ "" ∧ 2 ≤ jsLen b.text ∧ jsLen b.text ≤ 120) := by
  constructor
  · intro hne
    have h0 : ¬ (collectTier matchesInteractive (0.85 : Rat) false dom vw vh).length = 0 := by
      intro h
      exact hne (List.length_eq_zero.mp h)
    simp only [extractVisibleElementsWithBoxes]
    rw [if_neg h0]
  · intro hemp
    have h0 : (collectTier matchesInteractive (0.85 : Rat) false dom vw vh).length = 0 := by
      rw [hemp]
      rfl
    have hx : extractVisibleElementsWithBoxes dom vw vh =
        mapRawBoxed
          ((collectTier matchesWidened (0.55 : Rat) true dom vw vh).take 50) := by
      simp only [extractVisibleElementsWithBoxes]
      rw [if_pos h0]
    refine ⟨hx, ?_, ?_⟩
    · rw [hx]
      unfold mapRawBoxed
      rw [List.length_map]
      exact List.length_take_le _ _
    · intro b hb
      rw [hx] at hb
      unfold mapRawBoxed at hb
      rcases List.mem_map.mp hb with ⟨rb, hrb, hbe⟩
      have hrb2 : rb ∈ collectTier matchesWidened (0.55 : Rat) true dom vw vh :=
        List.mem_of_mem_take hrb
      unfold collectTier at hrb2
      rcases List.mem_filterMap.mp hrb2 with ⟨o, ho, hid⟩
      rcases mem_mapWithIdx _ _ _ _ ho with ⟨j, e, he, hoeq⟩
      have hsome : collectStep vw vh (0.55 : Rat) true j e = some rb := by
        rw [← hoeq]
        exact hid
      have hp := collectStep_textOnly_props vw vh (0.55 : Rat) j e rb hsome
      have h2le : 2 ≤ jsLen rb.text := hp.2.2.1
      subst hbe
      refine ⟨hp.1, hp.2.1, ?_, hp.2.2.1, hp.2.2.2⟩
      intro hc
      have hc2 : rb.text = "" := hc
      rw [hc2] at h2le
      simp [jsLen] at h2le

/-- Witness for `fallback_tier_gating_and_properties`: a DOM with one
visible button keeps the primary tier (first conjunct, primary tier
non-empty), and a DOM with only a visible paragraph enters the fallback tier
and its result length is at most 50 (second conjunct, primary tier empty). -/
theorem fallback_tier_gating_and_properties_witness :
    extractVisibleElementsWithBoxes [demoVisibleButton] 1280 720 =
      mapRawBoxed (collectTier matchesInteractive (0.85 : Rat) false
        [demoVisibleButton] 1280 720) ∧
    (extractVisibleElementsWithBoxes [demoPara] 1280 720).length ≤ 50 := by
  constructor
  · exact (fallback_tier_gating_and_properties [demoVisibleButton] 1280 720).1
      (by decide)
  · exact ((fallback_tier_gating_and_properties [demoPara] 1280 720).2
      (by decide)).2.1

/-- Claim C6: a completed scan is judged blocked if and only if the HTTP
status is exactly 401, 403 or 429, or some blocked-title pattern occurs
case-insensitively in the page title; and a blocked scan's response
withholds the results — empty elements list and no screenshot field — even
when extraction found elements. -/
theorem blocked_judgment_iff_and_withholds (s : ScanData) :
    ((scanRespond s).blocked = true ↔
      ((s.status = some 401 ∨ s.status = some 403 ∨ s.status = some 429) ∨
        ∃ p ∈ blockPatterns, p.data <:+: (jsLower (s.title.getD "")).data)) ∧
    ((scanRespond s).blocked = true →
      (scanRespond s).elements = [] ∧
      (scanRespond s).screenshot = Option.none) := by
  have hcond : (blockedByStatus s.status || blockedByTitle s.title) = true ↔
      ((s.status = some 401 ∨ s.status = some 403 ∨ s.status = some 429) ∨
        ∃ p ∈ blockPatterns, p.data <:+: (jsLower (s.title.getD "")).data) := by
    simp [blockedByStatus, blockedByTitle, Bool.or_eq_true, decide_eq_true_eq,
      List.any_eq_true, containsSeq_iff]
    tauto
  have hblocked : (scanRespond s).blocked
      = (blockedByStatus s.status || blockedByTitle s.title) := by
    unfold scanRespond
    split
    · rename_i h
      simp [h]
    · rename_i h
      have h' : (blockedByStatus s.status || blockedByTitle s.title) = false :=
        Bool.eq_false_iff.mpr h
      split <;> simp [h']
  constructor
  · rw [hblocked]
    exact hcond
  · intro hb
    rw [hblocked] at hb
    simp [scanRespond, hb]

/-- Witness for `blocked_judgment_iff_and_withholds`: a 403 scan that did
find an element and captured a screenshot still answers with an empty
elements list and no screenshot. -/
theorem blocked_judgment_iff_and_withholds_witness :
    (scanRespond demoBlockedScan).elements = [] ∧
    (scanRespond demoBlockedScan).screenshot = Option.none :=
  (blocked_judgment_iff_and_withholds demoBlockedScan).2 (by decide)

/-- Claim C10: a navigation with no HTTP response (status `null`) never
satisfies the status condition, a missing or empty title never satisfies the
title condition, and such a scan is answered through a non-blocked branch —
`blocked` is false and the screenshot is included (both the zero-elements
and the success branch carry the screenshot, unlike the blocked branch). -/
theorem null_status_empty_title_not_blocked (s : ScanData)
    (h1 : s.status = Option.none)
    (h2 : s.title = Option.none ∨ s.title = some "") :
    blockedByStatus s.status = false ∧
    blockedByTitle s.title = false ∧
    (scanRespond s).blocked = false ∧
    (scanRespond s).screenshot = some s.screenshot := by
  have hs : blockedByStatus s.status = false := by
    rw [h1]
    decide
  have ht : blockedByTitle s.title = false := by
    rcases h2 with h | h <;> rw [h] <;> decide
  refine ⟨hs, ht, ?_, ?_⟩ <;>
    unfold scanRespond <;>
      rw [hs, ht] <;>
        by_cases he : s.elements.length = 0 <;>
          simp [he]

/-- Witness for `null_status_empty_title_not_blocked` on a scan with
`status = null` and an empty title. -/
theorem null_status_empty_title_not_blocked_witness :
    blockedByStatus demoNullScan.status = false ∧
    blockedByTitle demoNullScan.title = false ∧
    (scanRespond demoNullScan).blocked = false ∧
    (scanRespond demoNullScan).screenshot = some demoNullScan.screenshot :=
  null_status_empty_title_not_blocked demoNullScan rfl (Or.inr rfl)

/-- Claim C8: selector synthesis priority with first match winning — a
JS-truthy id yields `#id`; otherwise a truthy data-testid, aria-label, name
attribute (each in its bracketed form); otherwise the bare tag name. And
concretely: a button with `id="go"` extracts to selector `#go`, action
`click`, tag `button`; an `<input name="q">` with no id, data-testid or
aria-label extracts to selector `[name="q"]`, action `input`. -/
theorem selector_priority_and_examples :
    (∀ (a : GenAttrs) (s : String), a.id = some s → s ≠ "" →
      generateSelector a = "#" ++ s) ∧
    (∀ (a : GenAttrs) (s : String), truthyStr a.id = Option.none →
      a.dataTestid = some s → s ≠ "" →
      generateSelector a = "[data-testid=\"" ++ s ++ "\"]") ∧
    (∀ (a : GenAttrs) (s : String), truthyStr a.id = Option.none →
      truthyStr a.dataTestid = Option.none → a.ariaLabel = some s → s ≠ "" →
      generateSelector a = "[aria-label=\"" ++ s ++ "\"]") ∧
    (∀ (a : GenAttrs) (s : String), truthyStr a.id = Option.none →
      truthyStr a.dataTestid = Option.none →
      truthyStr a.ariaLabel = Option.none → a.name = some s → s ≠ "" →
      generateSelector a = "[name=\"" ++ s ++ "\"]") ∧
    (∀ (a : GenAttrs) (s : String), truthyStr a.id = Option.none →
      truthyStr a.dataTestid = Option.none →
      truthyStr a.ariaLabel = Option.none → truthyStr a.name = Option.none →
      a.tag = some s → s ≠ "" →
      generateSelector a = s) ∧
    (extractElements [buttonGo]).map (fun x => (x.selector, x.action, x.tag))
      = [("#go", ActionKind.click, "button")] ∧
    (extractElements [inputQ]).map (fun x => (x.selector, x.action, x.tag))
      = [("[name=\"q\"]", ActionKind.input, "input")] := by
  refine ⟨?_, ?_, ?_, ?_, ?_, by decide, by decide⟩
  · intro a s hid hne
    have h : truthyStr a.id = some s := by simp [truthyStr, hid, hne]
    simp [generateSelector, h]
  · intro a s h0 hdt hne
    have h : truthyStr a.dataTestid = some s := by simp [truthyStr, hdt, hne]
    simp [generateSelector, h0, h]
  · intro a s h0 h1 hal hne
    have h : truthyStr a.ariaLabel = some s := by simp [truthyStr, hal, hne]
    simp [generateSelector, h0, h1, h]
  · intro a s h0 h1 h2 hnm hne
    have h : truthyStr a.name = some s := by simp [truthyStr, hnm, hne]
    simp [generateSelector, h0, h1, h2, h]
  · intro a s h0 h1 h2 h3 htag hne
    have h : truthyStr a.tag = some s := by simp [truthyStr, htag, hne]
    simp [generateSelector, h0, h1, h2, h3, h]

/-- Witness for `selector_priority_and_examples`: id case and name case
instantiated at the two concrete attribute records. -/
theorem selector_priority_and_examples_witness :
    generateSelector
      ⟨some "go", Option.none, Option.none, Option.none, some "button"⟩
      = "#" ++ "go" ∧
    generateSelector
      ⟨Option.none, Option.none, Option.none, some "q", some "input"⟩
      = "[name=\"" ++ "q" ++ "\"]" := by
  constructor
  · exact selector_priority_and_examples.1
      ⟨some "go", Option.none, Option.none, Option.none, some "button"⟩
      "go" rfl (by decide)
  · exact selector_priority_and_examples.2.2.2.1
      ⟨Option.none, Option.none, Option.none, some "q", some "input"⟩
      "q" rfl rfl rfl rfl (by decide)
